import Mathlib

/-!
Shallow embedding of the GoogleCloudPlatform samples repository.

The files modelled here are the ones the verified claims touch:
  * `dataproc/submit_job_to_cluster.py` (polling loops, `main` orchestration,
    `get_region_from_zone`, `get_cluster_id_by_name`);
  * `servicedirectory/snippets.py` (thin create wrappers);
  * `genappbuilder/poll_operation_sample.py` (operation polling);
  * the repository-wide import structure of the sample files.

SDK clients are modelled as response oracles: a function from the index of a
call to the response the service returns for that call.  Loops that the Python
runs unboundedly are modelled with an explicit fuel argument; a `none` result
means the loop was still running when the fuel ran out, so a function that
returns `none` for every fuel value never returns at all.  Python exceptions
are modelled with `Except`; the loop functions also return the list of
observable effects (SDK calls and sleeps) the run performed.
-/

namespace GCPSamples

/-- Python exception values raised by the modelled code:
`exc` is a bare `Exception(msg)`, `typeError` the `TypeError` raised by
unpacking `None`, and `valueError` the `ValueError` of `get_region_from_zone`. -/
inductive PyError
  | exc (msg : String)
  | typeError
  | valueError (msg : String)
deriving DecidableEq

/-- Observable effects of the Dataproc / Discovery Engine samples: each SDK
call carries the index of that call on its client, and `sleepCall n` is a
`time.sleep(n)`. -/
inductive DPEvent
  | listClustersCall (i : Nat)
  | getJobCall (i : Nat)
  | getOperationCall (i : Nat)
  | sleepCall (n : Nat)
deriving DecidableEq

/-! ## Data shapes of the Dataproc protobuf responses (the fields the sample reads) -/

/-- `cluster.status`: the sample reads `state` (via `State.Name`) and `detail`. -/
structure ClusterStatus where
  state : String
  detail : String
deriving DecidableEq

/-- `cluster.config`: the sample reads `config_bucket`. -/
structure ClusterConfig where
  config_bucket : String
deriving DecidableEq

/-- A cluster as returned by `list_clusters`. -/
structure Cluster where
  cluster_name : String
  cluster_uuid : String
  status : ClusterStatus
  config : ClusterConfig
deriving DecidableEq

/-- `job.status`: the sample reads `state` (via `State.Name`) and `details`. -/
structure JobStatus where
  state : String
  details : String
deriving DecidableEq

/-- `job.reference`: the sample reads `job_id`. -/
structure JobReference where
  job_id : String
deriving DecidableEq

/-- A job as returned by `get_job` / `submit_job`. -/
structure Job where
  status : JobStatus
  reference : JobReference
deriving DecidableEq

/-! ## `wait_for_job` (submit_job_to_cluster.py, lines 174-185)

```python
while True:
    job = dataproc.get_job(project, region, job_id)
    if job.status.State.Name(job.status.state) == 'ERROR':
        raise Exception(job.status.details)
    elif job.status.State.Name(job.status.state) == 'DONE':
        print('Job finished.')
        return job
```
`get_job` is the oracle giving the response of the i-th `get_job` call. -/

def wait_for_job (get_job : Nat → Job) : Nat → Nat → Option (Except PyError Job) × List DPEvent
  | 0, _ => (none, [])
  | fuel + 1, i =>
    if (get_job i).status.state = "ERROR" then
      (some (Except.error (PyError.exc (get_job i).status.details)), [DPEvent.getJobCall i])
    else if (get_job i).status.state = "DONE" then
      (some (Except.ok (get_job i)), [DPEvent.getJobCall i])
    else
      ((wait_for_job get_job fuel (i + 1)).1,
       DPEvent.getJobCall i :: (wait_for_job get_job fuel (i + 1)).2)

/-! ## `wait_for_cluster_creation` (submit_job_to_cluster.py, lines 110-123)

```python
wait = True
while wait:
    for cluster in dataproc.list_clusters(project, region):
        if cluster.cluster_name == cluster_name:
            if cluster.status.State.Name(cluster.status.state) == 'ERROR':
                raise Exception(cluster.status.detail)
            if cluster.status.State.Name(cluster.status.state) == 'RUNNING':
                print('Cluster created.')
                wait = False
                break
```
`check_cluster_list` is the inner `for` loop over one `list_clusters` response:
`some (.error _)` models the raise, `some (.ok ())` the `wait = False; break`,
`none` a pass over the whole list that decided nothing (loop again). -/

def check_cluster_list (cluster_name : String) : List Cluster → Option (Except PyError Unit)
  | [] => none
  | c :: rest =>
    if c.cluster_name = cluster_name then
      if c.status.state = "ERROR" then some (Except.error (PyError.exc c.status.detail))
      else if c.status.state = "RUNNING" then some (Except.ok ())
      else check_cluster_list cluster_name rest
    else check_cluster_list cluster_name rest

def wait_for_cluster_creation (list_clusters : Nat → List Cluster) (cluster_name : String) :
    Nat → Nat → Option (Except PyError Unit) × List DPEvent
  | 0, _ => (none, [])
  | fuel + 1, i =>
    match check_cluster_list cluster_name (list_clusters i) with
    | some r => (some r, [DPEvent.listClustersCall i])
    | none =>
      ((wait_for_cluster_creation list_clusters cluster_name fuel (i + 1)).1,
       DPEvent.listClustersCall i ::
         (wait_for_cluster_creation list_clusters cluster_name fuel (i + 1)).2)

/-! ## `get_region_from_zone` (submit_job_to_cluster.py, lines 52-57)

```python
try:
    region_as_list = zone.split('-')[:-1]
    return '-'.join(region_as_list)
except (AttributeError, IndexError, ValueError):
    raise ValueError('Invalid zone provided, please check your input.')
```
Python strings are modelled as `List Char`.  `splitOnChar` is `str.split(sep)`
for a one-character separator and `joinChar` is `sep.join(parts)`.  On a string
argument the body's operations are total (`str.split` never raises, slicing a
list never raises, `str.join` of a list of `str` never raises), so the
`except` branch — reachable in Python only via the `AttributeError` of a
non-string input — has no preimage in this model and the result is always
`Except.ok`. -/

def splitOnChar (sep : Char) : List Char → List (List Char)
  | [] => [[]]
  | c :: cs =>
    if c = sep then [] :: splitOnChar sep cs
    else
      match splitOnChar sep cs with
      | [] => [[c]]
      | r :: rs => (c :: r) :: rs

def joinChar (sep : Char) : List (List Char) → List Char
  | [] => []
  | [p] => p
  | p :: q :: qs => p ++ sep :: joinChar sep (q :: qs)

def get_region_from_zone (zone : List Char) : Except PyError (List Char) :=
  Except.ok (joinChar '-' ((splitOnChar '-' zone).dropLast))

/-! ## `get_cluster_id_by_name` (submit_job_to_cluster.py, lines 135-139)

```python
for cluster in dataproc.list_clusters(project_id, region):
    if cluster.cluster_name == cluster_name:
        return cluster.cluster_uuid, cluster.config.config_bucket
```
Falling off the loop returns Python's implicit `None`, modelled as `none`. -/

def get_cluster_id_by_name (clusters : List Cluster) (cluster_name : String) :
    Option (String × String) :=
  match clusters with
  | [] => none
  | c :: rest =>
    if c.cluster_name = cluster_name then some (c.cluster_uuid, c.config.config_bucket)
    else get_cluster_id_by_name rest cluster_name

/-! ## `main` (submit_job_to_cluster.py, lines 188-246)

The SDK clients of `main` are modelled by `DataprocEnv`: `list_clusters i` is
the response of the i-th `list_clusters` call on the cluster client (the
polling loop, `list_clusters_with_details` and `get_cluster_id_by_name` all
share that client), `get_job i` the response of the i-th `get_job` call,
`submit_job` the response of the single `submit_job` call, and
`download a b c` the string `download_output` fetches for
`(cluster_id, output_bucket, job_id) = (a, b, c)`.

`main` returns its result together with the sequence of local steps it ran, in
order, one `StepName` per statement of the Python body:
`get_pyspark_file` opens the PySpark file, `close_file` is the
`spark_file.close()` of the `finally` block.  A `none` result models a run
whose polling loop was still going when the fuel ran out; such a run has not
reached the `finally` block (or a `return`), so no cleanup steps follow. -/

structure DataprocEnv where
  list_clusters : Nat → List Cluster
  get_job : Nat → Job
  submit_job : Job
  download : String → String → String → String

/-- The local functions `main` invokes, in source order. -/
inductive StepName
  | get_pyspark_file
  | create_cluster
  | wait_for_cluster_creation
  | upload_pyspark_file
  | list_clusters_with_details
  | get_cluster_id_by_name
  | submit_pyspark_job
  | wait_for_job
  | download_output
  | delete_cluster
  | close_file
deriving DecidableEq

/-- The statements of `main`'s `try` block from `upload_pyspark_file` on,
entered with `li` `list_clusters` calls already made by the cluster client:
`list_clusters_with_details` consumes response `li` and
`get_cluster_id_by_name` consumes response `li + 1`.  Unpacking the `None`
returned by `get_cluster_id_by_name` when no cluster matches raises a
`TypeError`. -/
def main_after_upload (env : DataprocEnv) (cluster_name : String) (jobFuel li : Nat) :
    Option (Except PyError String) × List StepName :=
  match get_cluster_id_by_name (env.list_clusters (li + 1)) cluster_name with
  | none =>
    (some (Except.error PyError.typeError),
     [StepName.upload_pyspark_file, StepName.list_clusters_with_details,
      StepName.get_cluster_id_by_name])
  | some (cluster_id, output_bucket) =>
    match (wait_for_job env.get_job jobFuel 0).1 with
    | none =>
      (none,
       [StepName.upload_pyspark_file, StepName.list_clusters_with_details,
        StepName.get_cluster_id_by_name, StepName.submit_pyspark_job,
        StepName.wait_for_job])
    | some (Except.error e) =>
      (some (Except.error e),
       [StepName.upload_pyspark_file, StepName.list_clusters_with_details,
        StepName.get_cluster_id_by_name, StepName.submit_pyspark_job,
        StepName.wait_for_job])
    | some (Except.ok _job) =>
      (some (Except.ok (env.download cluster_id output_bucket
          env.submit_job.reference.job_id)),
       [StepName.upload_pyspark_file, StepName.list_clusters_with_details,
        StepName.get_cluster_id_by_name, StepName.submit_pyspark_job,
        StepName.wait_for_job, StepName.download_output])

/-- The whole `try` block of `main`: open the PySpark file, then (when
`create_new_cluster`) `create_cluster` and `wait_for_cluster_creation`, then
the rest.  After a successful wait, the cluster client has made one
`list_clusters` call per poll, i.e. `w.2.length` of them. -/
def main_body (env : DataprocEnv) (cluster_name : String) (create_new_cluster : Bool)
    (ccFuel jobFuel : Nat) : Option (Except PyError String) × List StepName :=
  if create_new_cluster then
    match (wait_for_cluster_creation env.list_clusters cluster_name ccFuel 0).1 with
    | none =>
      (none,
       [StepName.get_pyspark_file, StepName.create_cluster,
        StepName.wait_for_cluster_creation])
    | some (Except.error e) =>
      (some (Except.error e),
       [StepName.get_pyspark_file, StepName.create_cluster,
        StepName.wait_for_cluster_creation])
    | some (Except.ok ()) =>
      ((main_after_upload env cluster_name jobFuel
          (wait_for_cluster_creation env.list_clusters cluster_name ccFuel 0).2.length).1,
       [StepName.get_pyspark_file, StepName.create_cluster,
        StepName.wait_for_cluster_creation] ++
         (main_after_upload env cluster_name jobFuel
           (wait_for_cluster_creation env.list_clusters cluster_name ccFuel 0).2.length).2)
  else
    ((main_after_upload env cluster_name jobFuel 0).1,
     StepName.get_pyspark_file :: (main_after_upload env cluster_name jobFuel 0).2)

/-- `main`: region selection, then the `try` block, then the `finally` block.
The `finally` block runs `delete_cluster` and `spark_file.close()` when and
only when `create_new_cluster` is set, on every exit from the `try` block
(normal or raising); a body that never exits (`none`) never reaches it. -/
def main (env : DataprocEnv) (zone : List Char) (cluster_name : String)
    (create_new_cluster global_region : Bool) (ccFuel jobFuel : Nat) :
    Option (Except PyError String) × List StepName :=
  match (if global_region then Except.ok ("global".toList)
         else get_region_from_zone zone : Except PyError (List Char)) with
  | Except.error e => (some (Except.error e), [])
  | Except.ok _region =>
    match (main_body env cluster_name create_new_cluster ccFuel jobFuel).1 with
    | none => (none, (main_body env cluster_name create_new_cluster ccFuel jobFuel).2)
    | some r =>
      if create_new_cluster then
        (some r, (main_body env cluster_name create_new_cluster ccFuel jobFuel).2 ++
          [StepName.delete_cluster, StepName.close_file])
      else (some r, (main_body env cluster_name create_new_cluster ccFuel jobFuel).2)

/-! ## Service Directory snippets (servicedirectory/snippets.py)

The `RegistrationServiceClient` is a response oracle per create RPC; each
wrapper returns the SDK response together with the list of RPCs it issued. -/

/-- The fields of `servicedirectory_v1beta1.Namespace` the sample sets/reads. -/
structure SDNamespace where
  name : String
deriving DecidableEq

structure SDService where
  name : String
deriving DecidableEq

structure SDEndpoint where
  name : String
  address : String
  port : Nat
deriving DecidableEq

/-- One RPC on the `RegistrationServiceClient`, with its arguments. -/
inductive SDCall
  | createNamespaceRPC (parent : String) (ns : SDNamespace) (namespace_id : String)
  | createServiceRPC (parent : String) (service : SDService) (service_id : String)
  | createEndpointRPC (parent : String) (endpoint : SDEndpoint) (endpoint_id : String)
deriving DecidableEq

/-- The registration client as an oracle: the response the service returns to
each possible create RPC. -/
structure SDClient where
  create_namespace_resp : String → SDNamespace → String → SDNamespace
  create_service_resp : String → SDService → String → SDService
  create_endpoint_resp : String → SDEndpoint → String → SDEndpoint

def create_namespace (client : SDClient) (project_id location_id namespace_id : String) :
    SDNamespace × List SDCall :=
  let ns : SDNamespace :=
    { name := "projects/" ++ project_id ++ "/locations/" ++ location_id ++
        "/namespaces/" ++ namespace_id }
  let parent := "projects/" ++ project_id ++ "/locations/" ++ location_id
  let response := client.create_namespace_resp parent ns namespace_id
  (response, [SDCall.createNamespaceRPC parent ns namespace_id])

def create_service (client : SDClient)
    (project_id location_id namespace_id service_id : String) :
    SDService × List SDCall :=
  let service : SDService :=
    { name := "projects/" ++ project_id ++ "/locations/" ++ location_id ++
        "/namespaces/" ++ namespace_id ++ "/services/" ++ service_id }
  let parent := "projects/" ++ project_id ++ "/locations/" ++ location_id ++
    "/namespaces/" ++ namespace_id
  let response := client.create_service_resp parent service service_id
  (response, [SDCall.createServiceRPC parent service service_id])

def create_endpoint (client : SDClient)
    (project_id location_id namespace_id service_id endpoint_id address : String)
    (port : Nat) : SDEndpoint × List SDCall :=
  let endpoint : SDEndpoint :=
    { name := "projects/" ++ project_id ++ "/locations/" ++ location_id ++
        "/namespaces/" ++ namespace_id ++ "/services/" ++ service_id ++
        "/endpoints/" ++ endpoint_id
      address := address
      port := port }
  let parent := "projects/" ++ project_id ++ "/locations/" ++ location_id ++
    "/namespaces/" ++ namespace_id ++ "/services/" ++ service_id
  let response := client.create_endpoint_resp parent endpoint endpoint_id
  (response, [SDCall.createEndpointRPC parent endpoint endpoint_id])

/-! ## `poll_operation_sample` (genappbuilder/poll_operation_sample.py, lines 28-45)

```python
while True:
    operation = client.get_operation(request=request)
    print(operation)
    if operation.done:
        break
    sleep(10)
```
`get_operation i` is the response of the i-th `get_operation` call. -/

structure Operation where
  done : Bool
deriving DecidableEq

def poll_operation_sample (get_operation : Nat → Operation) :
    Nat → Nat → Option Unit × List DPEvent
  | 0, _ => (none, [])
  | fuel + 1, i =>
    if (get_operation i).done then (some (), [DPEvent.getOperationCall i])
    else
      ((poll_operation_sample get_operation fuel (i + 1)).1,
       DPEvent.getOperationCall i :: DPEvent.sleepCall 10 ::
         (poll_operation_sample get_operation fuel (i + 1)).2)

/-! ## Repository-wide import structure

One entry per source file of the repository.  `local_imports` lists the
`import` statements of the file that resolve to a sibling module of this
repository (a `.py` file living next to it) rather than to an installed
package; `is_test` marks the pytest / nox test files (`*_test.py`). -/

structure RepoFile where
  path : String
  is_test : Bool
  local_imports : List String
deriving DecidableEq

def repo_files : List RepoFile :=
  [ { path := "automl/cloud-client/deploy_model_test.py", is_test := true,
      local_imports := ["deploy_model"] },
    { path := "automl/cloud-client/list_datasets.py", is_test := false,
      local_imports := [] },
    { path := "automl/cloud-client/list_models.py", is_test := false,
      local_imports := [] },
    { path := "automl/cloud-client/translate_create_model_test.py", is_test := true,
      local_imports := ["translate_create_model"] },
    { path := "composer/workflows/bq_copy_across_locations_test.py", is_test := true,
      local_imports := [] },
    { path := "container_registry/container_analysis/samples_test.py", is_test := true,
      local_imports := ["samples"] },
    { path := "dataflow/run-inference/main.py", is_test := false,
      local_imports := [] },
    { path := "dataproc/submit_job_to_cluster.py", is_test := false,
      local_imports := [] },
    { path := "dialogflow/cloud-client/mic_stream_audio_response.py", is_test := false,
      local_imports := [] },
    { path := "genappbuilder/poll_operation_sample.py", is_test := false,
      local_imports := [] },
    { path := "generative_ai/function_calling_chat.py", is_test := false,
      local_imports := [] },
    { path := "generative_ai/gemini_count_token_example.py", is_test := false,
      local_imports := [] },
    { path := "generative_ai/imagen/edit_image_mask_free_test.py", is_test := true,
      local_imports := ["edit_image_mask_free"] },
    { path := "generative_ai/text_image_embedding_test.py", is_test := true,
      local_imports := ["text_image_embedding"] },
    { path := "generativeai/embedding.py", is_test := false,
      local_imports := [] },
    { path := "jobs/cjd_sample/histogram_sample.py", is_test := false,
      local_imports := ["base_company_sample", "base_job_sample",
        "custom_attribute_sample"] },
    { path := "managed_vms/endpoints/main.py", is_test := false,
      local_imports := [] },
    { path := "monitoring/api/v3/alerts-client/noxfile.py", is_test := false,
      local_imports := [] },
    { path := "people-and-planet-ai/timeseries-classification/trainer.py", is_test := false,
      local_imports := [] },
    { path := "practice-folder/intermediate-sample/main_test.py", is_test := true,
      local_imports := ["main"] },
    { path := "run/idp-sql/test/e2e_test.py", is_test := true,
      local_imports := [] },
    { path := "servicedirectory/snippets.py", is_test := false,
      local_imports := [] },
    { path := "tables/automl/pipeline/tables_client.py", is_test := false,
      local_imports := [] },
    { path := "texttospeech/snippets/long_audio_quickstart_test.py", is_test := true,
      local_imports := ["long_audio_quickstart"] },
    { path := "texttospeech/ssml_addresses/tts_test.py", is_test := true,
      local_imports := ["tts"] },
    { path := "vmwareengine/cloud-client/create_legacy_network.py", is_test := false,
      local_imports := [] } ]

/-! ## Spec-side descriptions used by the claims -/

/-- The spec's termination condition for one `list_clusters` poll: the
response contains a cluster with the requested name whose state is `ERROR`
or `RUNNING`. -/
def cluster_hit (list_clusters : Nat → List Cluster) (cluster_name : String) (i : Nat) : Bool :=
  (list_clusters i).any fun c =>
    c.cluster_name == cluster_name &&
      (c.status.state == "ERROR" || c.status.state == "RUNNING")

/-- The spec's termination condition for one `get_job` poll: the returned job
reports state `ERROR` or `DONE`. -/
def job_hit (get_job : Nat → Job) (i : Nat) : Bool :=
  (get_job i).status.state == "ERROR" || (get_job i).status.state == "DONE"

lemma check_cluster_list_isSome (cluster_name : String) (l : List Cluster) :
    (check_cluster_list cluster_name l).isSome =
      l.any fun c =>
        c.cluster_name == cluster_name &&
          (c.status.state == "ERROR" || c.status.state == "RUNNING") := by
  induction l with
  | nil => rfl
  | cons c rest ih =>
    simp only [check_cluster_list, List.any_cons]
    by_cases h1 : c.cluster_name = cluster_name
    · by_cases h2 : c.status.state = "ERROR"
      · simp [h1, h2]
      · by_cases h3 : c.status.state = "RUNNING"
        · simp [h1, h2, h3]
        · simp [h1, h2, h3, ih]
    · simp [h1, ih]

lemma wait_for_cluster_creation_isSome (list_clusters : Nat → List Cluster)
    (cluster_name : String) :
    ∀ fuel start, (wait_for_cluster_creation list_clusters cluster_name fuel start).1.isSome = true ↔
      ∃ k, k < fuel ∧ cluster_hit list_clusters cluster_name (start + k) = true := by
  intro fuel
  induction fuel with
  | zero => intro start; simp [wait_for_cluster_creation]
  | succ n ih =>
    intro start
    rw [wait_for_cluster_creation]
    cases h : check_cluster_list cluster_name (list_clusters start) with
    | some r =>
      simp only [h, Option.isSome_some, true_iff]
      refine ⟨0, Nat.succ_pos n, ?_⟩
      have := check_cluster_list_isSome cluster_name (list_clusters start)
      rw [h] at this
      simpa [cluster_hit] using this.symm
    | none =>
      simp only [h]
      have hmiss : cluster_hit list_clusters cluster_name start = false := by
        have := check_cluster_list_isSome cluster_name (list_clusters start)
        rw [h] at this
        simpa [cluster_hit] using this.symm
      rw [ih (start + 1)]
      constructor
      · rintro ⟨k, hk, hh⟩
        refine ⟨k + 1, by omega, ?_⟩
        have : start + (k + 1) = start + 1 + k := by omega
        rw [this]; exact hh
      · rintro ⟨k, hk, hh⟩
        cases k with
        | zero => rw [Nat.add_zero] at hh; rw [hmiss] at hh; cases hh
        | succ m =>
          refine ⟨m, by omega, ?_⟩
          have : start + 1 + m = start + (m + 1) := by omega
          rw [this]; exact hh

lemma wait_for_cluster_creation_trace (list_clusters : Nat → List Cluster)
    (cluster_name : String) :
    ∀ fuel start, ∃ m, m ≤ fuel ∧
      (wait_for_cluster_creation list_clusters cluster_name fuel start).2 =
        (List.range m).map fun k => DPEvent.listClustersCall (start + k) := by
  intro fuel
  induction fuel with
  | zero => intro start; exact ⟨0, Nat.le_refl 0, rfl⟩
  | succ n ih =>
    intro start
    rw [wait_for_cluster_creation]
    cases h : check_cluster_list cluster_name (list_clusters start) with
    | some r => exact ⟨1, by omega, by simp [List.range_succ]⟩
    | none =>
      obtain ⟨m, hm, htr⟩ := ih (start + 1)
      refine ⟨m + 1, by omega, ?_⟩
      simp only [htr, List.range_succ_eq_map, List.map_cons, List.map_map]
      refine congrArg₂ List.cons (by simp) ?_
      apply List.map_congr_left
      intro a _
      simp only [Function.comp_apply]
      exact congrArg _ (by omega)

lemma wait_for_job_isSome (get_job : Nat → Job) :
    ∀ fuel start, (wait_for_job get_job fuel start).1.isSome = true ↔
      ∃ k, k < fuel ∧ job_hit get_job (start + k) = true := by
  intro fuel
  induction fuel with
  | zero => intro start; simp [wait_for_job]
  | succ n ih =>
    intro start
    rw [wait_for_job]
    by_cases h1 : (get_job start).status.state = "ERROR"
    · rw [if_pos h1]
      simp only [Option.isSome_some, true_iff]
      exact ⟨0, Nat.succ_pos n, by simp [job_hit, h1]⟩
    · by_cases h2 : (get_job start).status.state = "DONE"
      · rw [if_neg h1, if_pos h2]
        simp only [Option.isSome_some, true_iff]
        exact ⟨0, Nat.succ_pos n, by simp [job_hit, h2]⟩
      · rw [if_neg h1, if_neg h2]
        have hmiss : job_hit get_job start = false := by simp [job_hit, h1, h2]
        rw [ih (start + 1)]
        constructor
        · rintro ⟨k, hk, hh⟩
          refine ⟨k + 1, by omega, ?_⟩
          have : start + (k + 1) = start + 1 + k := by omega
          rw [this]; exact hh
        · rintro ⟨k, hk, hh⟩
          cases k with
          | zero => rw [Nat.add_zero] at hh; rw [hmiss] at hh; cases hh
          | succ m =>
            refine ⟨m, by omega, ?_⟩
            have : start + 1 + m = start + (m + 1) := by omega
            rw [this]; exact hh

lemma wait_for_job_trace (get_job : Nat → Job) :
    ∀ fuel start, ∃ m, m ≤ fuel ∧
      (wait_for_job get_job fuel start).2 =
        (List.range m).map fun k => DPEvent.getJobCall (start + k) := by
  intro fuel
  induction fuel with
  | zero => intro start; exact ⟨0, Nat.le_refl 0, rfl⟩
  | succ n ih =>
    intro start
    rw [wait_for_job]
    by_cases h1 : (get_job start).status.state = "ERROR"
    · exact ⟨1, by omega, by rw [if_pos h1]; simp [List.range_succ]⟩
    · by_cases h2 : (get_job start).status.state = "DONE"
      · exact ⟨1, by omega, by rw [if_neg h1, if_pos h2]; simp [List.range_succ]⟩
      · obtain ⟨m, hm, htr⟩ := ih (start + 1)
        refine ⟨m + 1, by omega, ?_⟩
        rw [if_neg h1, if_neg h2]
        simp only [htr, List.range_succ_eq_map, List.map_cons, List.map_map]
        refine congrArg₂ List.cons (by simp) ?_
        apply List.map_congr_left
        intro a _
        simp only [Function.comp_apply]
        exact congrArg _ (by omega)

/-- Claim C1: `wait_for_job` polls `get_job` in a loop with no failure
classification beyond a generic exception: on each polled job, state `ERROR`
raises a bare `Exception` carrying `job.status.details` (the `PyError.exc`
constructor, no more specific error type), state `DONE` returns the job, and
any other state immediately polls again (the next iteration of the same loop,
with nothing but the `get_job` call added to the event trace). -/
theorem wait_for_job_classification (get_job : Nat → Job) (fuel i : Nat) :
    ((get_job i).status.state = "ERROR" →
      wait_for_job get_job (fuel + 1) i =
        (some (Except.error (PyError.exc (get_job i).status.details)),
         [DPEvent.getJobCall i]))
    ∧ ((get_job i).status.state = "DONE" →
      wait_for_job get_job (fuel + 1) i =
        (some (Except.ok (get_job i)), [DPEvent.getJobCall i]))
    ∧ ((get_job i).status.state ≠ "ERROR" → (get_job i).status.state ≠ "DONE" →
      wait_for_job get_job (fuel + 1) i =
        ((wait_for_job get_job fuel (i + 1)).1,
         DPEvent.getJobCall i :: (wait_for_job get_job fuel (i + 1)).2)) := by
  refine ⟨?_, ?_, ?_⟩
  · intro h
    rw [wait_for_job, if_pos h]
  · intro h
    rw [wait_for_job, if_neg (by rw [h]; decide), if_pos h]
  · intro h1 h2
    rw [wait_for_job, if_neg h1, if_neg h2]

/-- Claim C1 witness: at a `get_job` oracle that always answers `DONE`, the
loop returns that job after one poll. -/
theorem wait_for_job_classification_witness :
    wait_for_job
      (fun _ => { status := { state := "DONE", details := "" },
                  reference := { job_id := "j" } }) 1 0 =
      (some (Except.ok { status := { state := "DONE", details := "" },
                         reference := { job_id := "j" } }),
       [DPEvent.getJobCall 0]) :=
  (wait_for_job_classification
    (fun _ => { status := { state := "DONE", details := "" },
                reference := { job_id := "j" } }) 0 0).2.1 rfl

/-- Claim C2: `wait_for_cluster_creation` and `wait_for_job` are blocking
polling loops with no retry/backoff and no iteration limit: within any fuel
bound the loop has produced a result iff some poll within that bound hit the
terminating condition (named cluster in state `ERROR` or `RUNNING`, resp. job
in state `ERROR` or `DONE`); the event trace is nothing but consecutive
re-polls (no `sleepCall` between them); and if no poll ever hits the
condition the loop yields no result at any fuel, i.e. never returns. -/
theorem polling_loops_terminate_iff (list_clusters : Nat → List Cluster)
    (cluster_name : String) (get_job : Nat → Job) (fuel start : Nat) :
    ((wait_for_cluster_creation list_clusters cluster_name fuel start).1.isSome = true ↔
      ∃ k, k < fuel ∧ cluster_hit list_clusters cluster_name (start + k) = true)
    ∧ (∃ m, m ≤ fuel ∧
        (wait_for_cluster_creation list_clusters cluster_name fuel start).2 =
          (List.range m).map fun k => DPEvent.listClustersCall (start + k))
    ∧ ((∀ i, cluster_hit list_clusters cluster_name i = false) →
        (wait_for_cluster_creation list_clusters cluster_name fuel start).1 = none)
    ∧ ((wait_for_job get_job fuel start).1.isSome = true ↔
      ∃ k, k < fuel ∧ job_hit get_job (start + k) = true)
    ∧ (∃ m, m ≤ fuel ∧
        (wait_for_job get_job fuel start).2 =
          (List.range m).map fun k => DPEvent.getJobCall (start + k))
    ∧ ((∀ i, job_hit get_job i = false) →
        (wait_for_job get_job fuel start).1 = none) := by
  refine ⟨wait_for_cluster_creation_isSome list_clusters cluster_name fuel start,
    wait_for_cluster_creation_trace list_clusters cluster_name fuel start, ?_,
    wait_for_job_isSome get_job fuel start,
    wait_for_job_trace get_job fuel start, ?_⟩
  · intro hmiss
    cases h : (wait_for_cluster_creation list_clusters cluster_name fuel start).1 with
    | none => rfl
    | some r =>
      have h1 : (wait_for_cluster_creation list_clusters cluster_name fuel start).1.isSome = true := by
        rw [h]; rfl
      obtain ⟨k, _, hk⟩ :=
        (wait_for_cluster_creation_isSome list_clusters cluster_name fuel start).1 h1
      rw [hmiss (start + k)] at hk
      cases hk
  · intro hmiss
    cases h : (wait_for_job get_job fuel start).1 with
    | none => rfl
    | some r =>
      have h1 : (wait_for_job get_job fuel start).1.isSome = true := by
        rw [h]; rfl
      obtain ⟨k, _, hk⟩ := (wait_for_job_isSome get_job fuel start).1 h1
      rw [hmiss (start + k)] at hk
      cases hk

/-- Claim C2 witness: with an empty region the cluster wait never produces a
result, and with a job oracle that is immediately `DONE` the job wait does. -/
theorem polling_loops_terminate_iff_witness :
    (wait_for_cluster_creation (fun _ => []) "c" 7 0).1 = none ∧
    (wait_for_job
      (fun _ => { status := { state := "DONE", details := "" },
                  reference := { job_id := "j" } }) 7 0).1.isSome = true := by
  constructor
  · exact (polling_loops_terminate_iff (fun _ => []) "c"
      (fun _ => { status := { state := "DONE", details := "" },
                  reference := { job_id := "j" } }) 7 0).2.2.1 (fun _ => rfl)
  · exact ((polling_loops_terminate_iff (fun _ => []) "c"
      (fun _ => { status := { state := "DONE", details := "" },
                  reference := { job_id := "j" } }) 7 0).2.2.2.1).2
      ⟨0, by omega, by decide⟩

/-! ## Lemmas about `splitOnChar` / `joinChar` -/

lemma splitOnChar_ne_nil (sep : Char) : ∀ l : List Char, splitOnChar sep l ≠ [] := by
  intro l
  induction l with
  | nil => simp [splitOnChar]
  | cons c cs ih =>
    rw [splitOnChar]
    by_cases h : c = sep
    · simp [h]
    · rw [if_neg h]
      cases hsc : splitOnChar sep cs with
      | nil => simp
      | cons r rs => simp

lemma splitOnChar_no_sep (sep : Char) : ∀ l : List Char, sep ∉ l → splitOnChar sep l = [l] := by
  intro l
  induction l with
  | nil => intro _; rfl
  | cons c cs ih =>
    intro h
    have hc : ¬ c = sep := fun hcs => h (hcs ▸ List.mem_cons_self c cs)
    have hcs : sep ∉ cs := fun hm => h (List.mem_cons_of_mem c hm)
    rw [splitOnChar, if_neg hc, ih hcs]

lemma splitOnChar_append (sep : Char) :
    ∀ l r : List Char, splitOnChar sep (l ++ sep :: r) = splitOnChar sep l ++ splitOnChar sep r := by
  intro l r
  induction l with
  | nil => simp [splitOnChar]
  | cons c cs ih =>
    by_cases h : c = sep
    · rw [List.cons_append, splitOnChar, if_pos h, ih]
      rw [splitOnChar, if_pos h]
      rfl
    · rw [List.cons_append, splitOnChar, if_neg h, ih]
      cases hsc : splitOnChar sep cs with
      | nil => exact absurd hsc (splitOnChar_ne_nil sep cs)
      | cons p ps =>
        rw [splitOnChar, if_neg h, hsc]
        rfl

lemma joinChar_splitOnChar (sep : Char) : ∀ l : List Char, joinChar sep (splitOnChar sep l) = l := by
  intro l
  induction l with
  | nil => rfl
  | cons c cs ih =>
    by_cases h : c = sep
    · rw [splitOnChar, if_pos h]
      cases hsc : splitOnChar sep cs with
      | nil => exact absurd hsc (splitOnChar_ne_nil sep cs)
      | cons p ps =>
        rw [hsc] at ih
        rw [joinChar, ih, h]
        rfl
    · rw [splitOnChar, if_neg h]
      cases hsc : splitOnChar sep cs with
      | nil => exact absurd hsc (splitOnChar_ne_nil sep cs)
      | cons p ps =>
        rw [hsc] at ih
        cases ps with
        | nil =>
          rw [joinChar]
          rw [joinChar] at ih
          rw [ih]
        | cons q qs =>
          rw [joinChar, List.cons_append]
          rw [joinChar] at ih
          rw [ih]

/-- Claim C8: for every string `zone`, `get_region_from_zone` returns the
hyphen-join of all hyphen-separated components of `zone` except the last and
never raises; a `zone` with no hyphen yields the empty string rather than an
error (the `ValueError` branch has no preimage for string inputs), and for a
`zone` of the usual `region-suffix` shape the region prefix is returned
exactly. -/
theorem get_region_from_zone_characterization (zone : List Char) :
    (get_region_from_zone zone =
      Except.ok (joinChar '-' ((splitOnChar '-' zone).dropLast)))
    ∧ (∀ e, get_region_from_zone zone ≠ Except.error e)
    ∧ ('-' ∉ zone → get_region_from_zone zone = Except.ok [])
    ∧ (∀ tail : List Char, '-' ∉ tail →
        get_region_from_zone (zone ++ '-' :: tail) = Except.ok zone) := by
  refine ⟨rfl, ?_, ?_, ?_⟩
  · intro e h
    rw [get_region_from_zone] at h
    cases h
  · intro h
    rw [get_region_from_zone]
    rw [splitOnChar_no_sep '-' zone h]
    rfl
  · intro tail htail
    rw [get_region_from_zone]
    rw [splitOnChar_append '-' zone tail, splitOnChar_no_sep '-' tail htail]
    rw [List.dropLast_append_cons]
    simp [joinChar_splitOnChar]

/-- Claim C8 witness: a hyphen-free zone yields the empty region, and
`us-central1-a` yields `us-central1`. -/
theorem get_region_from_zone_characterization_witness :
    get_region_from_zone ['u', 's'] = Except.ok [] ∧
    get_region_from_zone (['u', 's', '-', 'c', '1'] ++ '-' :: ['a']) =
      Except.ok ['u', 's', '-', 'c', '1'] :=
  ⟨(get_region_from_zone_characterization ['u', 's']).2.2.1 (by decide),
   (get_region_from_zone_characterization ['u', 's', '-', 'c', '1']).2.2.2 ['a'] (by decide)⟩

/-! ## Claim C6: `poll_operation_sample` -/

lemma poll_operation_sample_not_done (get_operation : Nat → Operation) :
    ∀ fuel start, (∀ j, j < fuel → (get_operation (start + j)).done = false) →
      (poll_operation_sample get_operation fuel start).1 = none := by
  intro fuel
  induction fuel with
  | zero => intro start _; rfl
  | succ n ih =>
    intro start h
    have h0 : (get_operation start).done = false := by
      have := h 0 (Nat.succ_pos n)
      rwa [Nat.add_zero] at this
    rw [poll_operation_sample, if_neg (by rw [h0]; decide)]
    exact ih (start + 1) fun j hj => by
      have := h (j + 1) (by omega)
      rwa [show start + (j + 1) = start + 1 + j by omega] at this

lemma poll_operation_sample_run (get_operation : Nat → Operation) :
    ∀ fuel start n, n < fuel →
      (∀ j, j < n → (get_operation (start + j)).done = false) →
      (get_operation (start + n)).done = true →
      poll_operation_sample get_operation fuel start =
        (some (),
         ((List.range n).flatMap fun k =>
            [DPEvent.getOperationCall (start + k), DPEvent.sleepCall 10]) ++
           [DPEvent.getOperationCall (start + n)]) := by
  intro fuel
  induction fuel with
  | zero => intro start n hn; omega
  | succ m ih =>
    intro start n hn hmiss hdone
    cases n with
    | zero =>
      rw [Nat.add_zero] at hdone
      rw [poll_operation_sample, if_pos hdone]
      simp
    | succ p =>
      have h0 : (get_operation start).done = false := by
        have := hmiss 0 (Nat.succ_pos p)
        rwa [Nat.add_zero] at this
      rw [poll_operation_sample, if_neg (by rw [h0]; decide)]
      have hrec := ih (start + 1) p (by omega)
        (fun j hj => by
          have := hmiss (j + 1) (by omega)
          rwa [show start + (j + 1) = start + 1 + j by omega] at this)
        (by rwa [show start + 1 + p = start + (p + 1) by omega])
      rw [hrec]
      have hshift :
          (fun k => [DPEvent.getOperationCall (start + 1 + k), DPEvent.sleepCall 10]) =
          fun k => [DPEvent.getOperationCall (start + (k + 1)), DPEvent.sleepCall 10] := by
        funext k
        rw [show start + 1 + k = start + (k + 1) by omega]
      rw [hshift, show start + 1 + p = start + (p + 1) by omega]
      rw [List.range_succ_eq_map]
      simp only [List.flatMap_cons, List.flatMap_map, Nat.succ_eq_add_one, Nat.add_zero]
      rfl

/-- Claim C6: `poll_operation_sample` polls for completion and nothing else:
it returns exactly at the first `get_operation` response with `done = true`
(after polling indices `0..n` with a `sleep(10)` between consecutive polls and
none after the last), and while every response seen so far has `done = false`
it has not returned — with no response ever done, it polls forever. -/
theorem poll_operation_sample_first_done (get_operation : Nat → Operation)
    (fuel n : Nat) :
    (n < fuel → (∀ j, j < n → (get_operation j).done = false) →
      (get_operation n).done = true →
      poll_operation_sample get_operation fuel 0 =
        (some (),
         ((List.range n).flatMap fun k =>
            [DPEvent.getOperationCall k, DPEvent.sleepCall 10]) ++
           [DPEvent.getOperationCall n]))
    ∧ ((∀ j, j < fuel → (get_operation j).done = false) →
        (poll_operation_sample get_operation fuel 0).1 = none) := by
  constructor
  · intro hn hmiss hdone
    have := poll_operation_sample_run get_operation fuel 0 n hn
      (fun j hj => by simpa using hmiss j hj) (by simpa using hdone)
    simpa using this
  · intro hmiss
    exact poll_operation_sample_not_done get_operation fuel 0
      fun j hj => by simpa using hmiss j hj

/-- Claim C6 witness: with an operation that is running on the first poll and
done on the second, the sample polls twice with one ten-second sleep in
between; with one that is never done within the fuel bound it does not
return. -/
theorem poll_operation_sample_first_done_witness :
    poll_operation_sample (fun i => { done := i == 1 }) 3 0 =
      (some (),
       [DPEvent.getOperationCall 0, DPEvent.sleepCall 10, DPEvent.getOperationCall 1]) ∧
    (poll_operation_sample (fun _ => { done := false }) 9 0).1 = none := by
  constructor
  · have := (poll_operation_sample_first_done (fun i => { done := i == 1 }) 3 1).1
      (by omega)
      (fun j hj => by
        have : j = 0 := by omega
        rw [this]; rfl)
      rfl
    simpa using this
  · exact (poll_operation_sample_first_done (fun _ => { done := false }) 9 0).2
      fun j _ => rfl

/-! ## Claim C4: sample self-containedness -/

/-- Claim C4 counterexample: the claim "no sample imports or calls into a
sibling sample file" fails at `jobs/cjd_sample/histogram_sample.py`, whose
`run_sample` imports the sibling sample modules `base_company_sample`,
`base_job_sample` and `custom_attribute_sample`. -/
theorem samples_self_contained_cex :
    (RepoFile.mk "jobs/cjd_sample/histogram_sample.py" false
      ["base_company_sample", "base_job_sample", "custom_attribute_sample"]) ∈ repo_files
    ∧ ¬ (∀ f ∈ repo_files, f.local_imports = []) := by
  constructor
  · decide
  · intro h
    have := h (RepoFile.mk "jobs/cjd_sample/histogram_sample.py" false
      ["base_company_sample", "base_job_sample", "custom_attribute_sample"]) (by decide)
    cases this

/-- Claim C4 (amended): every non-test sample file of the repository other
than `jobs/cjd_sample/histogram_sample.py` imports no local sibling module,
and every test file imports at most one (the sample it accompanies);
`histogram_sample.py` itself imports three sibling sample modules. -/
theorem samples_self_contained_amended :
    ∀ f ∈ repo_files,
      (f.is_test = false → f.path ≠ "jobs/cjd_sample/histogram_sample.py" →
        f.local_imports = [])
      ∧ (f.is_test = true → f.local_imports.length ≤ 1) := by
  decide

/-- Claim C4 (amended) witness: the Dataproc sample imports no sibling
module, and the AutoML deploy test imports exactly its one sample. -/
theorem samples_self_contained_amended_witness :
    (RepoFile.mk "dataproc/submit_job_to_cluster.py" false []).local_imports = [] ∧
    (RepoFile.mk "automl/cloud-client/deploy_model_test.py" true
      ["deploy_model"]).local_imports.length ≤ 1 :=
  ⟨(samples_self_contained_amended
      (RepoFile.mk "dataproc/submit_job_to_cluster.py" false []) (by decide)).1
      rfl (by decide),
   (samples_self_contained_amended
      (RepoFile.mk "automl/cloud-client/deploy_model_test.py" true
        ["deploy_model"]) (by decide)).2 rfl⟩

/-! ## Lemmas about `main` -/

/-- Region selection never raises (`get_region_from_zone` is total on
strings), so `main` always reduces to its `try`/`finally` part. -/
lemma main_eq_body (env : DataprocEnv) (zone : List Char) (cluster_name : String)
    (create_new_cluster global_region : Bool) (ccFuel jobFuel : Nat) :
    main env zone cluster_name create_new_cluster global_region ccFuel jobFuel =
      match (main_body env cluster_name create_new_cluster ccFuel jobFuel).1 with
      | none => (none, (main_body env cluster_name create_new_cluster ccFuel jobFuel).2)
      | some r =>
        if create_new_cluster then
          (some r, (main_body env cluster_name create_new_cluster ccFuel jobFuel).2 ++
            [StepName.delete_cluster, StepName.close_file])
        else (some r, (main_body env cluster_name create_new_cluster ccFuel jobFuel).2) := by
  rw [main]
  cases global_region with
  | true => simp
  | false => simp [get_region_from_zone]

lemma main_false_eq (env : DataprocEnv) (zone : List Char) (cluster_name : String)
    (global_region : Bool) (ccFuel jobFuel : Nat) :
    main env zone cluster_name false global_region ccFuel jobFuel =
      ((main_after_upload env cluster_name jobFuel 0).1,
       StepName.get_pyspark_file :: (main_after_upload env cluster_name jobFuel 0).2) := by
  rw [main_eq_body]
  have hbody : main_body env cluster_name false ccFuel jobFuel =
      ((main_after_upload env cluster_name jobFuel 0).1,
       StepName.get_pyspark_file :: (main_after_upload env cluster_name jobFuel 0).2) := by
    simp [main_body]
  rw [hbody]
  cases hau : (main_after_upload env cluster_name jobFuel 0).1 with
  | none => simp
  | some r => simp

lemma main_after_upload_steps_bound (env : DataprocEnv) (cluster_name : String)
    (jobFuel li : Nat) :
    StepName.delete_cluster ∉ (main_after_upload env cluster_name jobFuel li).2 ∧
    StepName.close_file ∉ (main_after_upload env cluster_name jobFuel li).2 := by
  rw [main_after_upload]
  cases hg : get_cluster_id_by_name (env.list_clusters (li + 1)) cluster_name with
  | none => constructor <;> simp
  | some p =>
    cases p with
    | mk cid ob =>
      cases hw : (wait_for_job env.get_job jobFuel 0).1 with
      | none => constructor <;> simp
      | some r =>
        cases r with
        | error e => constructor <;> simp
        | ok j => constructor <;> simp

/-- Claim C10: cleanup in `main` is gated solely on `create_new_cluster`:
when it is true, every exit of the `try` block (normal return or raised
exception) is followed by `delete_cluster` and the file close; when it is
false, neither `delete_cluster` nor `spark_file.close()` is ever run even
though the PySpark file was opened, so the handle is never closed on that
path. -/
theorem main_cleanup_gating (env : DataprocEnv) (zone : List Char)
    (cluster_name : String) (global_region : Bool) (ccFuel jobFuel : Nat) :
    ((main env zone cluster_name true global_region ccFuel jobFuel).1.isSome = true →
      ∃ st, (main env zone cluster_name true global_region ccFuel jobFuel).2 =
        st ++ [StepName.delete_cluster, StepName.close_file])
    ∧ StepName.delete_cluster ∉
        (main env zone cluster_name false global_region ccFuel jobFuel).2
    ∧ StepName.close_file ∉
        (main env zone cluster_name false global_region ccFuel jobFuel).2
    ∧ StepName.get_pyspark_file ∈
        (main env zone cluster_name false global_region ccFuel jobFuel).2 := by
  refine ⟨?_, ?_, ?_, ?_⟩
  · intro hterm
    rw [main_eq_body] at hterm ⊢
    cases hb : (main_body env cluster_name true ccFuel jobFuel).1 with
    | none => rw [hb] at hterm; simp at hterm
    | some r =>
      exact ⟨(main_body env cluster_name true ccFuel jobFuel).2, by simp⟩
  · rw [main_false_eq]
    intro hmem
    rcases List.mem_cons.mp hmem with h | h
    · cases h
    · exact (main_after_upload_steps_bound env cluster_name jobFuel 0).1 h
  · rw [main_false_eq]
    intro hmem
    rcases List.mem_cons.mp hmem with h | h
    · cases h
    · exact (main_after_upload_steps_bound env cluster_name jobFuel 0).2 h
  · rw [main_false_eq]
    exact List.mem_cons_self _ _

/-- Claim C10 witness: on a run where everything succeeds with
`create_new_cluster = true`, the step trace ends with the cleanup pair. -/
theorem main_cleanup_gating_witness :
    ∃ st,
      (main
        { list_clusters := fun _ =>
            [{ cluster_name := "c", cluster_uuid := "uuid",
               status := { state := "RUNNING", detail := "" },
               config := { config_bucket := "b" } }],
          get_job := fun _ =>
            { status := { state := "DONE", details := "" },
              reference := { job_id := "j" } },
          submit_job :=
            { status := { state := "DONE", details := "" },
              reference := { job_id := "j" } },
          download := fun _ _ _ => "out" } [] "c" true true 2 2).2 =
        st ++ [StepName.delete_cluster, StepName.close_file] :=
  (main_cleanup_gating
    { list_clusters := fun _ =>
        [{ cluster_name := "c", cluster_uuid := "uuid",
           status := { state := "RUNNING", detail := "" },
           config := { config_bucket := "b" } }],
      get_job := fun _ =>
        { status := { state := "DONE", details := "" },
          reference := { job_id := "j" } },
      submit_job :=
        { status := { state := "DONE", details := "" },
          reference := { job_id := "j" } },
      download := fun _ _ _ => "out" } [] "c" true 2 2).1 (by decide)

/-! ## Claim C5: Service Directory create wrappers -/

/-- Claim C5: `create_namespace`, `create_service` and `create_endpoint` each
issue exactly one create RPC on the client, with the resource name and parent
built as `projects/{p}/locations/{l}/...` from the arguments, and return that
RPC's response unchanged (no other SDK invocation is made). -/
theorem sd_create_wrappers_single_rpc (client : SDClient)
    (project_id location_id namespace_id service_id endpoint_id address : String)
    (port : Nat) :
    (create_namespace client project_id location_id namespace_id =
      (client.create_namespace_resp
        ("projects/" ++ project_id ++ "/locations/" ++ location_id)
        { name := "projects/" ++ project_id ++ "/locations/" ++ location_id ++
            "/namespaces/" ++ namespace_id }
        namespace_id,
       [SDCall.createNamespaceRPC
         ("projects/" ++ project_id ++ "/locations/" ++ location_id)
         { name := "projects/" ++ project_id ++ "/locations/" ++ location_id ++
             "/namespaces/" ++ namespace_id }
         namespace_id]))
    ∧ (create_service client project_id location_id namespace_id service_id =
      (client.create_service_resp
        ("projects/" ++ project_id ++ "/locations/" ++ location_id ++
          "/namespaces/" ++ namespace_id)
        { name := "projects/" ++ project_id ++ "/locations/" ++ location_id ++
            "/namespaces/" ++ namespace_id ++ "/services/" ++ service_id }
        service_id,
       [SDCall.createServiceRPC
         ("projects/" ++ project_id ++ "/locations/" ++ location_id ++
           "/namespaces/" ++ namespace_id)
         { name := "projects/" ++ project_id ++ "/locations/" ++ location_id ++
             "/namespaces/" ++ namespace_id ++ "/services/" ++ service_id }
         service_id]))
    ∧ (create_endpoint client project_id location_id namespace_id service_id
        endpoint_id address port =
      (client.create_endpoint_resp
        ("projects/" ++ project_id ++ "/locations/" ++ location_id ++
          "/namespaces/" ++ namespace_id ++ "/services/" ++ service_id)
        { name := "projects/" ++ project_id ++ "/locations/" ++ location_id ++
            "/namespaces/" ++ namespace_id ++ "/services/" ++ service_id ++
            "/endpoints/" ++ endpoint_id
          address := address
          port := port }
        endpoint_id,
       [SDCall.createEndpointRPC
         ("projects/" ++ project_id ++ "/locations/" ++ location_id ++
           "/namespaces/" ++ namespace_id ++ "/services/" ++ service_id)
         { name := "projects/" ++ project_id ++ "/locations/" ++ location_id ++
             "/namespaces/" ++ namespace_id ++ "/services/" ++ service_id ++
             "/endpoints/" ++ endpoint_id
           address := address
           port := port }
         endpoint_id])) :=
  ⟨rfl, rfl, rfl⟩

/-! ## Claim C7: determinism of the Dataproc sample -/

/-- Claim C7: `main` is deterministic and sequential: two runs with identical
arguments whose SDK clients return identical response sequences produce the
same result and the same step sequence.  (The embedding is a pure sequential
function of the argument vector and the response oracles, reflecting that the
Python creates no thread, process or asynchronous task.) -/
theorem main_deterministic (env1 env2 : DataprocEnv) (zone : List Char)
    (cluster_name : String) (create_new_cluster global_region : Bool)
    (ccFuel jobFuel : Nat)
    (hlc : ∀ i, env1.list_clusters i = env2.list_clusters i)
    (hgj : ∀ i, env1.get_job i = env2.get_job i)
    (hsj : env1.submit_job = env2.submit_job)
    (hdl : ∀ a b c, env1.download a b c = env2.download a b c) :
    main env1 zone cluster_name create_new_cluster global_region ccFuel jobFuel =
      main env2 zone cluster_name create_new_cluster global_region ccFuel jobFuel := by
  have henv : env1 = env2 := by
    cases env1
    cases env2
    simp only [DataprocEnv.mk.injEq]
    exact ⟨funext hlc, funext hgj, hsj,
      funext fun a => funext fun b => funext fun c => hdl a b c⟩
  rw [henv]

/-- Claim C7 witness: two syntactically different environments with
pointwise-identical response sequences give identical runs. -/
theorem main_deterministic_witness :
    main
      { list_clusters := fun _ => [], get_job := fun _ =>
          { status := { state := "DONE", details := "" },
            reference := { job_id := "j" } },
        submit_job :=
          { status := { state := "DONE", details := "" },
            reference := { job_id := "j" } },
        download := fun _ _ _ => "out" } [] "c" false true 1 1 =
    main
      { list_clusters := fun _ => [] ++ [], get_job := fun _ =>
          { status := { state := "DONE", details := "" },
            reference := { job_id := "j" } },
        submit_job :=
          { status := { state := "DONE", details := "" },
            reference := { job_id := "j" } },
        download := fun _ _ _ => "ou" ++ "t" } [] "c" false true 1 1 :=
  main_deterministic _ _ [] "c" false true 1 1
    (fun _ => rfl) (fun _ => rfl) rfl (fun _ _ _ => rfl)

/-! ## Claim C9: `get_cluster_id_by_name` and the `TypeError` in `main` -/

lemma get_cluster_id_by_name_eq_find (clusters : List Cluster) (cluster_name : String) :
    get_cluster_id_by_name clusters cluster_name =
      (clusters.find? fun c => c.cluster_name == cluster_name).map
        fun c => (c.cluster_uuid, c.config.config_bucket) := by
  induction clusters with
  | nil => rfl
  | cons c rest ih =>
    by_cases h : c.cluster_name = cluster_name
    · simp [get_cluster_id_by_name, List.find?_cons, h]
    · simp [get_cluster_id_by_name, List.find?_cons, h, ih]

lemma main_after_upload_no_match (env : DataprocEnv) (cluster_name : String)
    (jobFuel li : Nat)
    (h : get_cluster_id_by_name (env.list_clusters (li + 1)) cluster_name = none) :
    main_after_upload env cluster_name jobFuel li =
      (some (Except.error PyError.typeError),
       [StepName.upload_pyspark_file, StepName.list_clusters_with_details,
        StepName.get_cluster_id_by_name]) := by
  simp only [main_after_upload, h]

/-- Claim C9: `get_cluster_id_by_name` returns the `(cluster_uuid,
config_bucket)` pair of the first listed cluster whose `cluster_name` matches,
and `none` (Python `None`) when no listed cluster matches; consequently when
`main` runs against a region where the named cluster is absent, the tuple
unpacking of that `None` raises a `TypeError` rather than a descriptive
error. -/
theorem get_cluster_id_by_name_first_match (env : DataprocEnv) (zone : List Char)
    (cluster_name : String) (global_region : Bool) (ccFuel jobFuel : Nat) :
    (∀ clusters name, get_cluster_id_by_name clusters name =
      (clusters.find? fun c => c.cluster_name == name).map
        fun c => (c.cluster_uuid, c.config.config_bucket))
    ∧ ((∀ i, ∀ c ∈ env.list_clusters i, c.cluster_name ≠ cluster_name) →
        (main env zone cluster_name false global_region ccFuel jobFuel).1 =
          some (Except.error PyError.typeError)) := by
  constructor
  · exact fun clusters name => get_cluster_id_by_name_eq_find clusters name
  · intro habs
    have hnone : get_cluster_id_by_name (env.list_clusters (0 + 1)) cluster_name = none := by
      rw [get_cluster_id_by_name_eq_find]
      rw [List.find?_eq_none.mpr]
      · rfl
      · intro c hc
        simp only [beq_iff_eq]
        exact habs (0 + 1) c hc
    rw [main_false_eq, main_after_upload_no_match env cluster_name jobFuel 0 hnone]

/-- Claim C9 witness: with an empty region, `main` without cluster creation
fails with the modelled `TypeError`. -/
theorem get_cluster_id_by_name_first_match_witness :
    (main
      { list_clusters := fun _ => [], get_job := fun _ =>
          { status := { state := "DONE", details := "" },
            reference := { job_id := "j" } },
        submit_job :=
          { status := { state := "DONE", details := "" },
            reference := { job_id := "j" } },
        download := fun _ _ _ => "out" } [] "c" false true 1 1).1 =
      some (Except.error PyError.typeError) :=
  (get_cluster_id_by_name_first_match
    { list_clusters := fun _ => [], get_job := fun _ =>
        { status := { state := "DONE", details := "" },
          reference := { job_id := "j" } },
      submit_job :=
        { status := { state := "DONE", details := "" },
          reference := { job_id := "j" } },
      download := fun _ _ _ => "out" } [] "c" true 1 1).2
    (fun _ c hc => absurd hc (List.not_mem_nil c))

/-! ## Claim C3: the step sequence of `main` -/

lemma main_after_upload_ok (env : DataprocEnv) (cluster_name : String)
    (jobFuel li : Nat) (cid ob : String) (j : Job)
    (hid : get_cluster_id_by_name (env.list_clusters (li + 1)) cluster_name =
      some (cid, ob))
    (hj : (wait_for_job env.get_job jobFuel 0).1 = some (Except.ok j)) :
    main_after_upload env cluster_name jobFuel li =
      (some (Except.ok (env.download cid ob env.submit_job.reference.job_id)),
       [StepName.upload_pyspark_file, StepName.list_clusters_with_details,
        StepName.get_cluster_id_by_name, StepName.submit_pyspark_job,
        StepName.wait_for_job, StepName.download_output]) := by
  simp only [main_after_upload, hid, hj]

lemma main_body_true_ok (env : DataprocEnv) (cluster_name : String)
    (ccFuel jobFuel : Nat)
    (hcc : (wait_for_cluster_creation env.list_clusters cluster_name ccFuel 0).1 =
      some (Except.ok ())) :
    main_body env cluster_name true ccFuel jobFuel =
      ((main_after_upload env cluster_name jobFuel
          (wait_for_cluster_creation env.list_clusters cluster_name ccFuel 0).2.length).1,
       [StepName.get_pyspark_file, StepName.create_cluster,
        StepName.wait_for_cluster_creation] ++
         (main_after_upload env cluster_name jobFuel
           (wait_for_cluster_creation env.list_clusters cluster_name ccFuel 0).2.length).2) := by
  simp [main_body, hcc]

/-- Claim C3 counterexample: on a run where every SDK response succeeds
immediately, `main` with `create_new_cluster = true` does not perform exactly
the spec's sequence create / wait / upload / submit / wait / download: it also
runs `list_clusters_with_details` and `get_cluster_id_by_name` between the
upload and the submission, and `delete_cluster` afterwards — the inequality
persists even after discarding the purely local file open/close steps. -/
theorem main_sequence_cex :
    (main
      { list_clusters := fun _ =>
          [{ cluster_name := "c", cluster_uuid := "uuid",
             status := { state := "RUNNING", detail := "" },
             config := { config_bucket := "b" } }],
        get_job := fun _ =>
          { status := { state := "DONE", details := "" },
            reference := { job_id := "j" } },
        submit_job :=
          { status := { state := "DONE", details := "" },
            reference := { job_id := "j" } },
        download := fun _ _ _ => "out" } [] "c" true true 2 2).2 ≠
      [StepName.create_cluster, StepName.wait_for_cluster_creation,
       StepName.upload_pyspark_file, StepName.submit_pyspark_job,
       StepName.wait_for_job, StepName.download_output]
    ∧ ((main
      { list_clusters := fun _ =>
          [{ cluster_name := "c", cluster_uuid := "uuid",
             status := { state := "RUNNING", detail := "" },
             config := { config_bucket := "b" } }],
        get_job := fun _ =>
          { status := { state := "DONE", details := "" },
            reference := { job_id := "j" } },
        submit_job :=
          { status := { state := "DONE", details := "" },
            reference := { job_id := "j" } },
        download := fun _ _ _ => "out" } [] "c" true true 2 2).2.filter
        fun s => !(s == StepName.get_pyspark_file || s == StepName.close_file)) ≠
      [StepName.create_cluster, StepName.wait_for_cluster_creation,
       StepName.upload_pyspark_file, StepName.submit_pyspark_job,
       StepName.wait_for_job, StepName.download_output] := by
  constructor <;> decide

/-- Claim C3 (amended): with `create_new_cluster = true` and every step
succeeding, `main` performs exactly: open the PySpark file, `create_cluster`,
`wait_for_cluster_creation`, `upload_pyspark_file`,
`list_clusters_with_details`, `get_cluster_id_by_name`, `submit_pyspark_job`,
`wait_for_job`, `download_output`, then the `finally` steps `delete_cluster`
and the file close, in that order, and returns the downloaded output; with
`create_new_cluster = false` the create/wait steps and the final delete/close
steps are skipped and the rest of the sequence is unchanged. -/
theorem main_sequence_amended (env : DataprocEnv) (zone : List Char)
    (cluster_name : String) (global_region : Bool) (ccFuel jobFuel : Nat)
    (cid ob cid2 ob2 : String) (j : Job)
    (hcc : (wait_for_cluster_creation env.list_clusters cluster_name ccFuel 0).1 =
      some (Except.ok ()))
    (hid : get_cluster_id_by_name
      (env.list_clusters
        ((wait_for_cluster_creation env.list_clusters cluster_name ccFuel 0).2.length + 1))
      cluster_name = some (cid, ob))
    (hid2 : get_cluster_id_by_name (env.list_clusters 1) cluster_name = some (cid2, ob2))
    (hj : (wait_for_job env.get_job jobFuel 0).1 = some (Except.ok j)) :
    main env zone cluster_name true global_region ccFuel jobFuel =
      (some (Except.ok (env.download cid ob env.submit_job.reference.job_id)),
       [StepName.get_pyspark_file, StepName.create_cluster,
        StepName.wait_for_cluster_creation, StepName.upload_pyspark_file,
        StepName.list_clusters_with_details, StepName.get_cluster_id_by_name,
        StepName.submit_pyspark_job, StepName.wait_for_job, StepName.download_output,
        StepName.delete_cluster, StepName.close_file])
    ∧ main env zone cluster_name false global_region ccFuel jobFuel =
      (some (Except.ok (env.download cid2 ob2 env.submit_job.reference.job_id)),
       [StepName.get_pyspark_file, StepName.upload_pyspark_file,
        StepName.list_clusters_with_details, StepName.get_cluster_id_by_name,
        StepName.submit_pyspark_job, StepName.wait_for_job,
        StepName.download_output]) := by
  constructor
  · rw [main_eq_body, main_body_true_ok env cluster_name ccFuel jobFuel hcc,
      main_after_upload_ok env cluster_name jobFuel
        (wait_for_cluster_creation env.list_clusters cluster_name ccFuel 0).2.length
        cid ob j hid hj]
    simp
  · rw [main_false_eq,
      main_after_upload_ok env cluster_name jobFuel 0 cid2 ob2 j hid2 hj]

/-- Claim C3 (amended) witness: a fully successful concrete run, showing the
full eleven-step trace and the downloaded output. -/
theorem main_sequence_amended_witness :
    main
      { list_clusters := fun _ =>
          [{ cluster_name := "c", cluster_uuid := "uuid",
             status := { state := "RUNNING", detail := "" },
             config := { config_bucket := "b" } }],
        get_job := fun _ =>
          { status := { state := "DONE", details := "" },
            reference := { job_id := "j" } },
        submit_job :=
          { status := { state := "DONE", details := "" },
            reference := { job_id := "j" } },
        download := fun _ _ _ => "out" } [] "c" true true 2 2 =
      (some (Except.ok "out"),
       [StepName.get_pyspark_file, StepName.create_cluster,
        StepName.wait_for_cluster_creation, StepName.upload_pyspark_file,
        StepName.list_clusters_with_details, StepName.get_cluster_id_by_name,
        StepName.submit_pyspark_job, StepName.wait_for_job, StepName.download_output,
        StepName.delete_cluster, StepName.close_file]) :=
  (main_sequence_amended
    { list_clusters := fun _ =>
        [{ cluster_name := "c", cluster_uuid := "uuid",
           status := { state := "RUNNING", detail := "" },
           config := { config_bucket := "b" } }],
      get_job := fun _ =>
        { status := { state := "DONE", details := "" },
          reference := { job_id := "j" } },
      submit_job :=
        { status := { state := "DONE", details := "" },
          reference := { job_id := "j" } },
      download := fun _ _ _ => "out" } [] "c" true 2 2
    "uuid" "b" "uuid" "b"
    { status := { state := "DONE", details := "" }, reference := { job_id := "j" } }
    rfl rfl rfl rfl).1

end GCPSamples

